import Mathlib

/-!
Verification of the `ha-shelly-export.py` pipeline: it fetches entity
records from a Home Assistant hub, filters them for Shelly switch and
cover entities (deduplicating by identifier), and exports the result to
a two-column CSV file.  The definitions below are a shallow embedding of
the script's functions; HTTP and filesystem effects are modelled by
explicit outcome values.
-/

/-! ## String helpers

Python's `str.startswith` and the substring test `needle in hay` are
modelled on character lists. -/

/-- `startsWithList hay needle` is true when `needle` is a prefix of `hay`
(Python `hay.startswith(needle)`). -/
def startsWithList : List Char → List Char → Bool
  | _, [] => true
  | [], _ :: _ => false
  | c :: cs, d :: ds => (c = d) && startsWithList cs ds

/-- `containsList needle hay` is true when `needle` occurs as a contiguous
sublist of `hay` (Python `needle in hay`). -/
def containsList (needle : List Char) : List Char → Bool
  | [] => startsWithList [] needle
  | c :: cs => startsWithList (c :: cs) needle || containsList needle cs

/-- Python `s.startswith(p)`. -/
def strStartsWith (s p : String) : Bool := startsWithList s.toList p.toList

/-- Python `needle in hay` on strings. -/
def strContains (hay needle : String) : Bool := containsList needle.toList hay.toList

/-- ASCII lower-casing of one character, as `Char.toLower` does it. -/
def lowerChar (c : Char) : Char :=
  if 'A' ≤ c ∧ c ≤ 'Z' then Char.ofNat (c.toNat + 32) else c

/-- Python `s.lower()` (the identifiers and markers involved are ASCII). -/
def lowerStr (s : String) : String := (s.toList.map lowerChar).asString

/-! ## Data model

An entity record as returned by the `/api/states` endpoint: a JSON object
that may or may not carry an `entity_id` field and an `attributes` mapping,
which in turn may or may not carry a `friendly_name`.  Absent fields are
`none`. -/

structure Attributes where
  friendly_name : Option String
deriving DecidableEq, Repr

structure RawEntity where
  entity_id : Option String
  attributes : Option Attributes
deriving DecidableEq, Repr

/-- The exported projection: `{"id": ..., "name": ...}`. -/
structure DeviceEntry where
  id : String
  name : String
deriving DecidableEq, Repr

/-- `entity.get("entity_id", "")` (line 77). -/
def getEntityId (e : RawEntity) : String := e.entity_id.getD ""

/-- `entity.get("attributes", {})` (line 78). -/
def getAttributes (e : RawEntity) : Attributes := e.attributes.getD ⟨none⟩

/-- `attributes.get("friendly_name", entity_id)` (line 79). -/
def friendlyName (e : RawEntity) : String :=
  (getAttributes e).friendly_name.getD (getEntityId e)

/-! ## Entity filter (lines 72-97 of `get_shelly_devices`) -/

/-- `entity_id.startswith("switch.") and "shelly" in entity_id.lower()` (line 83). -/
def is_switch (entity_id : String) : Bool :=
  strStartsWith entity_id "switch." && strContains (lowerStr entity_id) "shelly"

/-- `entity_id.startswith("cover.")` (line 84). -/
def is_cover (entity_id : String) : Bool := strStartsWith entity_id "cover."

/-- `"availability" in entity_id.lower() or "connectivity" in entity_id.lower()` (line 85). -/
def is_availability (entity_id : String) : Bool :=
  strContains (lowerStr entity_id) "availability" || strContains (lowerStr entity_id) "connectivity"

/-- The inclusion test of line 87: `(is_switch or is_cover) and not is_availability`. -/
def passesFilter (entity_id : String) : Bool :=
  ( is_switch entity_id || is_cover entity_id) && !( is_availability entity_id)

/-- The filtering loop of lines 76-96, with `seen` playing the role of
`seen_ids`.  A record whose identifier passes the filter and has not been
seen is appended to the output and its identifier recorded. -/
def filterGo (seen : List String) : List RawEntity → List DeviceEntry
  | [] => []
  | e :: rest =>
    let eid := getEntityId e
    if passesFilter eid then
      if eid ∈ seen then filterGo seen rest
      else { id := eid, name := friendlyName e } :: filterGo (eid :: seen) rest
    else filterGo seen rest

/-- The filter stage of `get_shelly_devices`: `seen_ids` starts empty. -/
def get_shelly_devices_filter (entities : List RawEntity) : List DeviceEntry :=
  filterGo [] entities

/-! ## Entity fetcher (lines 49-111 of `get_shelly_devices`)

Each of the two HTTP GET calls either raises a network error
(`requests.exceptions.RequestException`) or yields a response with a
status code and a body.  The states body is either a well-formed JSON
array of records or malformed (`ValueError` from `.json()`). -/

inductive HttpResult (α : Type) where
  | response (status : Nat) (body : α)
  | networkError (msg : String)
deriving DecidableEq, Repr

inductive StatesPayload where
  | json (entities : List RawEntity)
  | malformed (msg : String)
deriving DecidableEq, Repr

/-- The hub's behaviour on the two calls issued by `get_shelly_devices`:
the health-check `GET {base}/api/config` and the `GET {base}/api/states`
state dump. -/
structure Hub where
  config : HttpResult Unit
  states : HttpResult StatesPayload
deriving DecidableEq, Repr

/-- The fetch portion of `get_shelly_devices` (lines 49-68 and the
handlers of lines 101-111): returns the raw entity list obtained from
the hub, or `[]` on a non-200 config status, a non-200 states status, a
network error on either call, or a malformed states payload. -/
def fetch_states (hub : Hub) : List RawEntity :=
  match hub.config with
  | .networkError _ => []
  | .response st _ =>
    if st ≠ 200 then []
    else
      match hub.states with
      | .networkError _ => []
      | .response st2 body =>
        if st2 ≠ 200 then []
        else
          match body with
          | .malformed _ => []
          | .json entities => entities

/-- `get_shelly_devices` in full: fetch, then filter.  On every failure
branch the source returns `[]` before the filter loop is reached. -/
def get_shelly_devices (hub : Hub) : List DeviceEntry :=
  match hub.config with
  | .networkError _ => []
  | .response st _ =>
    if st ≠ 200 then []
    else
      match hub.states with
      | .networkError _ => []
      | .response st2 body =>
        if st2 ≠ 200 then []
        else
          match body with
          | .malformed _ => []
          | .json entities => get_shelly_devices_filter entities

/-! ## CSV exporter (`export_to_csv`, lines 113-150)

`csv.DictWriter` with the default `excel` dialect: fields joined by `,`,
rows terminated by `"\r\n"`, minimal quoting (a field is quoted exactly
when it contains the delimiter, the quote character, or a line-terminator
character, with embedded quotes doubled). -/

def crlf : String := "\r\n"

/-- QUOTE_MINIMAL: does this field need quoting? -/
def needsQuote (s : String) : Bool :=
  s.toList.any (fun c => c = ',' || c = '"' || c = '\r' || c = '\n')

/-- Double every embedded quote character. -/
def escapeQuotes : List Char → List Char
  | [] => []
  | c :: cs => if c = '"' then '"' :: '"' :: escapeQuotes cs else c :: escapeQuotes cs

/-- One CSV field as `csv.writer` emits it. -/
def csvField (s : String) : String :=
  if needsQuote s then "\"" ++ (escapeQuotes s.toList).asString ++ "\"" else s

/-- One data row: the `id` and `name` fields in `fieldnames` order. -/
def entryRow (d : DeviceEntry) : String := csvField d.id ++ "," ++ csvField d.name

/-- The sequence of write calls the exporter performs on the open file:
`writer.writeheader()` followed by one `writer.writerow(entity)` per
entry, in list order (lines 132-134). -/
def writesSeq (entities : List DeviceEntry) : List String :=
  ("id,name" ++ crlf) :: entities.map (fun d => entryRow d ++ crlf)

/-- The full file content produced by a successful export. -/
def csvContent (entities : List DeviceEntry) : String :=
  String.join (writesSeq entities)

/-- `shelly_devices_{timestamp}.csv` (line 121). -/
def defaultFilename (timestamp : String) : String :=
  "shelly_devices_" ++ timestamp ++ ".csv"

/-- Outcome of `open(output_file, 'w', ...)` and the subsequent writes:
success; `PermissionError` at `open` (no file is created); or some other
I/O failure after `k` of the write calls succeeded (the file exists with
the content written so far). -/
inductive WriteOutcome where
  | ok
  | permissionDenied
  | ioErrorAfter (k : Nat) (msg : String)
deriving DecidableEq, Repr

/-- The filesystem's behaviour during one export: what the write attempt
does, and the current working directory (only echoed in diagnostics). -/
structure FS where
  writeOutcome : WriteOutcome
  cwd : String
deriving DecidableEq, Repr

/-- What one call of `export_to_csv` produces: its return value (`None`
is `none`), the file left on disk (path and content), and the diagnostic
lines printed.  The post-write existence check of lines 138-141 only
prints a confirmation and is elided. -/
structure ExportResult where
  ret : Option String
  file : Option (String × String)
  msgs : List String
deriving DecidableEq, Repr

/-- `export_to_csv(entities, output_file)` (lines 113-150).  `timestamp`
stands for `datetime.now().strftime(...)`; a `none` or empty
`output_file` is falsy in Python and selects the generated name. -/
def export_to_csv (fs : FS) (entities : List DeviceEntry)
    (output_file : Option String) (timestamp : String) : ExportResult :=
  if entities.isEmpty then
    { ret := none, file := none
      msgs := ["No Shelly device entities to export. CSV file will not be created."] }
  else
    let f :=
      match output_file with
      | none => defaultFilename timestamp
      | some s => if s.isEmpty then defaultFilename timestamp else s
    let pre := ["Current working directory: " ++ fs.cwd,
                "Attempting to create file: " ++ f]
    match fs.writeOutcome with
    | .ok =>
      { ret := some f, file := some (f, csvContent entities)
        msgs := pre ++ ["Successfully exported " ++ toString entities.length
                          ++ " Shelly device entities to " ++ f] }
    | .permissionDenied =>
      { ret := none, file := none
        msgs := pre ++ ["ERROR: Permission denied when writing to " ++ f,
                        "Try specifying a different output location or run with administrator privileges"] }
    | .ioErrorAfter k msg =>
      { ret := none, file := some (f, String.join ((writesSeq entities).take k))
        msgs := pre ++ ["Error writing to CSV file: " ++ msg] }

/-! ## Reading the file back

Splitting the written bytes on the `"\r\n"` row terminator; the final
terminator leaves one trailing empty piece, which reading back as rows
drops. -/

def splitCRLF : List Char → List (List Char)
  | [] => [[]]
  | '\r' :: '\n' :: rest => [] :: splitCRLF rest
  | c :: rest =>
    match splitCRLF rest with
    | [] => [[c]]
    | r :: rs => (c :: r) :: rs

/-- The rows obtained by reading a written CSV file back. -/
def readRows (content : String) : List String :=
  ((splitCRLF content.toList).map List.asString).dropLast

/-! ## CLI resolution (`main`, lines 152-173) -/

/-- Python's `a or b` on optional strings: `None` and `""` are falsy. -/
def pyOr (a b : Option String) : Option String :=
  match a with
  | some s => if s.isEmpty then b else some s
  | none => b

/-- Python truthiness of an optional string. -/
def truthy : Option String → Bool
  | some s => !s.isEmpty
  | none => false

/-- How `main` proceeds after resolving its configuration: exit with a
status code and a diagnostic, or continue with a URL and token. -/
inductive MainConfig where
  | exitError (code : Nat) (msg : String)
  | proceed (ha_url token : String)
deriving DecidableEq, Repr

def urlMissingMsg : String :=
  "Error: Home Assistant URL not provided. Please provide it via --url argument or HA_URL in .env file"

def tokenMissingMsg : String :=
  "Error: Token not provided. Please provide it via --token argument or HA_TOKEN in .env file"

/-- Lines 164-173: `token = args.token or os.getenv('HA_TOKEN')`,
`ha_url = args.url or os.getenv('HA_URL')`, then `sys.exit(1)` with a
diagnostic when either is falsy (URL checked first). -/
def resolveMain (argUrl argToken envUrl envToken : Option String) : MainConfig :=
  let token := pyOr argToken envToken
  let ha_url := pyOr argUrl envUrl
  if truthy ha_url = false then .exitError 1 urlMissingMsg
  else if truthy token = false then .exitError 1 tokenMissingMsg
  else .proceed (ha_url.getD "") (token.getD "")

/-! ## Lemmas about the filter loop -/

theorem filterGo_passes : ∀ (es : List RawEntity) (seen : List String),
    ∀ d ∈ filterGo seen es, passesFilter d.id = true := by
  intro es
  induction es with
  | nil => intro seen d hd; simp [filterGo] at hd
  | cons e rest ih =>
    intro seen d hd
    simp only [filterGo] at hd
    by_cases hp : passesFilter (getEntityId e) = true
    · rw [if_pos hp] at hd
      by_cases hs : getEntityId e ∈ seen
      · rw [if_pos hs] at hd; exact ih seen d hd
      · rw [if_neg hs] at hd
        rcases List.mem_cons.mp hd with h | h
        · subst h; exact hp
        · exact ih _ d h
    · rw [if_neg hp] at hd; exact ih seen d hd

theorem filterGo_not_seen : ∀ (es : List RawEntity) (seen : List String),
    ∀ d ∈ filterGo seen es, d.id ∉ seen := by
  intro es
  induction es with
  | nil => intro seen d hd; simp [filterGo] at hd
  | cons e rest ih =>
    intro seen d hd
    simp only [filterGo] at hd
    by_cases hp : passesFilter (getEntityId e) = true
    · rw [if_pos hp] at hd
      by_cases hs : getEntityId e ∈ seen
      · rw [if_pos hs] at hd; exact ih seen d hd
      · rw [if_neg hs] at hd
        rcases List.mem_cons.mp hd with h | h
        · subst h; exact hs
        · intro hmem
          exact ih _ d h (List.mem_cons_of_mem _ hmem)
    · rw [if_neg hp] at hd; exact ih seen d hd

theorem filterGo_ids_nodup : ∀ (es : List RawEntity) (seen : List String),
    ((filterGo seen es).map DeviceEntry.id).Nodup := by
  intro es
  induction es with
  | nil => intro seen; simp [filterGo]
  | cons e rest ih =>
    intro seen
    simp only [filterGo]
    by_cases hp : passesFilter (getEntityId e) = true
    · rw [if_pos hp]
      by_cases hs : getEntityId e ∈ seen
      · rw [if_pos hs]; exact ih seen
      · rw [if_neg hs]
        simp only [List.map_cons, List.nodup_cons]
        refine ⟨?_, ih _⟩
        intro hmem
        rcases List.mem_map.mp hmem with ⟨d, hd, hid⟩
        exact filterGo_not_seen rest _ d hd (hid ▸ List.mem_cons_self _ _)
    · rw [if_neg hp]; exact ih seen

theorem filterGo_first_occ : ∀ (es : List RawEntity) (seen : List String),
    ∀ d ∈ filterGo seen es,
      ∃ e, es.find? (fun x => getEntityId x == d.id) = some e ∧
        getEntityId e = d.id ∧ friendlyName e = d.name := by
  intro es
  induction es with
  | nil => intro seen d hd; simp [filterGo] at hd
  | cons e rest ih =>
    intro seen d hd
    simp only [filterGo] at hd
    by_cases hp : passesFilter (getEntityId e) = true
    · rw [if_pos hp] at hd
      by_cases hs : getEntityId e ∈ seen
      · rw [if_pos hs] at hd
        have hid : d.id ≠ getEntityId e := by
          intro heq
          exact filterGo_not_seen rest seen d hd (heq ▸ hs)
        have hpe : ¬ ((fun x => getEntityId x == d.id) e = true) := by
          simp [beq_iff_eq]
          exact fun h => hid h.symm
        rw [show List.find? (fun x => getEntityId x == d.id) (e :: rest)
              = List.find? (fun x => getEntityId x == d.id) rest from
            List.find?_cons_of_neg rest hpe]
        exact ih seen d hd
      · rw [if_neg hs] at hd
        rcases List.mem_cons.mp hd with h | h
        · subst h
          refine ⟨e, ?_, rfl, rfl⟩
          exact List.find?_cons_of_pos _ (by simp)
        · have hid : d.id ≠ getEntityId e := by
            intro heq
            exact filterGo_not_seen rest _ d h (heq ▸ List.mem_cons_self _ _)
          have hpe : ¬ ((fun x => getEntityId x == d.id) e = true) := by
            simp [beq_iff_eq]
            exact fun hq => hid hq.symm
          rw [show List.find? (fun x => getEntityId x == d.id) (e :: rest)
                = List.find? (fun x => getEntityId x == d.id) rest from
              List.find?_cons_of_neg rest hpe]
          exact ih _ d h
    · rw [if_neg hp] at hd
      have hid : d.id ≠ getEntityId e := by
        intro heq
        have := filterGo_passes rest seen d hd
        rw [heq] at this
        exact hp this
      have hpe : ¬ ((fun x => getEntityId x == d.id) e = true) := by
        simp [beq_iff_eq]
        exact fun hq => hid hq.symm
      rw [show List.find? (fun x => getEntityId x == d.id) (e :: rest)
            = List.find? (fun x => getEntityId x == d.id) rest from
          List.find?_cons_of_neg rest hpe]
      exact ih seen d hd

theorem filterGo_mem_of_passes : ∀ (es : List RawEntity) (seen : List String),
    ∀ e ∈ es, passesFilter (getEntityId e) = true → getEntityId e ∉ seen →
      ∃ d ∈ filterGo seen es, d.id = getEntityId e := by
  intro es
  induction es with
  | nil => intro seen e he; simp at he
  | cons e' rest ih =>
    intro seen e he hp hns
    simp only [filterGo]
    rcases List.mem_cons.mp he with h | h
    · subst h
      rw [if_pos hp, if_neg hns]
      exact ⟨_, List.mem_cons_self _ _, rfl⟩
    · by_cases hp' : passesFilter (getEntityId e') = true
      · rw [if_pos hp']
        by_cases hs : getEntityId e' ∈ seen
        · rw [if_pos hs]
          exact ih seen e h hp hns
        · rw [if_neg hs]
          by_cases heq : getEntityId e = getEntityId e'
          · exact ⟨_, List.mem_cons_self _ _, heq.symm⟩
          · obtain ⟨d, hd, hid⟩ := ih (getEntityId e' :: seen) e h hp
              (by simp [hns, heq])
            exact ⟨d, List.mem_cons_of_mem _ hd, hid⟩
      · rw [if_neg hp']
        exact ih seen e h hp hns

theorem filterGo_sublist : ∀ (es : List RawEntity) (seen : List String),
    (filterGo seen es).Sublist
      (es.map (fun e => { id := getEntityId e, name := friendlyName e })) := by
  intro es
  induction es with
  | nil => intro seen; simp [filterGo]
  | cons e rest ih =>
    intro seen
    simp only [filterGo, List.map_cons]
    by_cases hp : passesFilter (getEntityId e) = true
    · rw [if_pos hp]
      by_cases hs : getEntityId e ∈ seen
      · rw [if_pos hs]; exact (ih seen).cons _
      · rw [if_neg hs]; exact (ih _).cons₂ _
    · rw [if_neg hp]; exact (ih seen).cons _

theorem foldl_append_str (ts : List String) : ∀ a : String,
    ts.foldl (fun r s => r ++ s) a = a ++ ts.foldl (fun r s => r ++ s) "" := by
  induction ts with
  | nil => intro a; simp
  | cons t ts ih =>
    intro a
    simp only [List.foldl_cons]
    rw [ih (a ++ t), ih ("" ++ t)]
    simp [String.append_assoc]

theorem stringJoin_cons (s : String) (l : List String) :
    String.join (s :: l) = s ++ String.join l := by
  unfold String.join
  simp only [List.foldl_cons]
  rw [foldl_append_str l ("" ++ s)]
  simp

/-! ## Claim theorems -/

theorem passesFilter_iff (eid : String) :
    passesFilter eid = true ↔
      ((strStartsWith eid "cover." = true ∨
        (strStartsWith eid "switch." = true ∧
         strContains (lowerStr eid) "shelly" = true)) ∧
       strContains (lowerStr eid) "availability" = false ∧
       strContains (lowerStr eid) "connectivity" = false) := by
  simp only [passesFilter, is_switch, is_cover, is_availability,
    Bool.and_eq_true, Bool.or_eq_true, Bool.not_eq_true', Bool.or_eq_false_iff]
  tauto

/-- C1: a record of the input appears in the filter's output exactly when
its identifier starts with `"cover."`, or starts with `"switch."` and
contains `"shelly"` case-insensitively, and in either case the identifier
does not contain `"availability"` or `"connectivity"` as a
case-insensitive substring. -/
theorem C1_filter_rule (es : List RawEntity) (e : RawEntity) (he : e ∈ es) :
    (∃ d ∈ get_shelly_devices_filter es, d.id = getEntityId e) ↔
      ((strStartsWith (getEntityId e) "cover." = true ∨
        (strStartsWith (getEntityId e) "switch." = true ∧
         strContains (lowerStr (getEntityId e)) "shelly" = true)) ∧
       strContains (lowerStr (getEntityId e)) "availability" = false ∧
       strContains (lowerStr (getEntityId e)) "connectivity" = false) := by
  rw [← passesFilter_iff]
  constructor
  · rintro ⟨d, hd, hid⟩
    have hp := filterGo_passes es [] d hd
    rwa [hid] at hp
  · intro hp
    exact filterGo_mem_of_passes es [] e he hp (by simp)

/-- Witness for C1 at a concrete mixed-case Shelly switch record. -/
theorem C1_witness :
    ∃ d ∈ get_shelly_devices_filter
        [{ entity_id := some "switch.ShellyPlug_kitchen", attributes := some ⟨some "Kitchen"⟩ }],
      d.id = getEntityId
        { entity_id := some "switch.ShellyPlug_kitchen", attributes := some ⟨some "Kitchen"⟩ } :=
  (C1_filter_rule _ _ (by decide)).mpr (by decide)
/-- C2: output identifiers are pairwise distinct; an identifier occurring
in the input and passing the filter yields exactly one `DeviceEntry`; and
every produced entry carries the name derived from the first input
occurrence of its identifier. -/
theorem C2_dedup (es : List RawEntity) :
    ((get_shelly_devices_filter es).map DeviceEntry.id).Nodup ∧
    (∀ i ∈ es.map getEntityId, passesFilter i = true →
      ∃! d, d ∈ get_shelly_devices_filter es ∧ d.id = i) ∧
    (∀ d ∈ get_shelly_devices_filter es,
      ∃ e, es.find? (fun x => getEntityId x == d.id) = some e ∧
        getEntityId e = d.id ∧ d.name = friendlyName e) := by
  refine ⟨filterGo_ids_nodup es [], ?_, ?_⟩
  · intro i hi hp
    rcases List.mem_map.mp hi with ⟨e, he, heq⟩
    subst heq
    obtain ⟨d, hd, hdid⟩ := filterGo_mem_of_passes es [] e he hp (by simp)
    refine ⟨d, ⟨hd, hdid⟩, ?_⟩
    rintro d' ⟨hd', hdid'⟩
    exact List.inj_on_of_nodup_map (filterGo_ids_nodup es []) hd' hd (by rw [hdid', hdid])
  · intro d hd
    obtain ⟨e, hfind, hide, hname⟩ := filterGo_first_occ es [] d hd
    exact ⟨e, hfind, hide, hname.symm⟩

/-- Witness for C2: the same identifier twice with different attributes
yields exactly one entry, named from the first occurrence. -/
theorem C2_witness :
    (∃! d, d ∈ get_shelly_devices_filter
        [{ entity_id := some "switch.shelly_1", attributes := some ⟨some "First"⟩ },
         { entity_id := some "switch.shelly_1", attributes := some ⟨some "Second"⟩ }] ∧
      d.id = "switch.shelly_1") ∧
    get_shelly_devices_filter
        [{ entity_id := some "switch.shelly_1", attributes := some ⟨some "First"⟩ },
         { entity_id := some "switch.shelly_1", attributes := some ⟨some "Second"⟩ }] =
      [{ id := "switch.shelly_1", name := "First" }] :=
  ⟨(C2_dedup _).2.1 "switch.shelly_1" (by decide) (by decide), by decide⟩
/-- C3: every failure of the fetch step — network error or non-200 status
on either call, or a malformed states payload — yields an empty list; a
non-200 health check yields an empty result whatever the states endpoint
would have returned, states data never reaching the filter; on success
the fetch yields the full entity list, and `get_shelly_devices` is the
filter applied to the fetch result. -/
theorem C3_fetch (cfg : HttpResult Unit) (sts : HttpResult StatesPayload) :
    (∀ m, fetch_states { config := .networkError m, states := sts } = []) ∧
    (∀ st, st ≠ 200 →
      fetch_states { config := .response st (), states := sts } = []) ∧
    (∀ m, fetch_states { config := cfg, states := .networkError m } = []) ∧
    (∀ st b, st ≠ 200 →
      fetch_states { config := cfg, states := .response st b } = []) ∧
    (∀ m, fetch_states { config := cfg, states := .response 200 (.malformed m) } = []) ∧
    (∀ entities, fetch_states
        { config := .response 200 (), states := .response 200 (.json entities) } = entities) ∧
    (∀ st, st ≠ 200 →
      get_shelly_devices { config := .response st (), states := sts } = []) ∧
    (∀ hub : Hub, get_shelly_devices hub = get_shelly_devices_filter (fetch_states hub)) := by
  refine ⟨fun m => rfl, ?_, ?_, ?_, ?_, fun entities => by simp [fetch_states], ?_, ?_⟩
  · intro st hst
    simp [fetch_states, hst]
  · intro m
    cases cfg with
    | networkError m' => rfl
    | response st b =>
      simp only [fetch_states]
      split <;> rfl
  · intro st b hst
    cases cfg with
    | networkError m' => rfl
    | response st' b' =>
      simp only [fetch_states]
      split
      · rfl
      · simp [hst]
  · intro m
    cases cfg with
    | networkError m' => rfl
    | response st' b' =>
      simp only [fetch_states]
      split <;> simp
  · intro st hst
    simp [get_shelly_devices, hst]
  · intro hub
    obtain ⟨cfg', sts'⟩ := hub
    cases cfg' with
    | networkError m => rfl
    | response st b =>
      by_cases hst : st ≠ 200
      · simp [get_shelly_devices, fetch_states, hst, get_shelly_devices_filter, filterGo]
      · cases sts' with
        | networkError m =>
          simp [get_shelly_devices, fetch_states, hst, get_shelly_devices_filter, filterGo]
        | response st2 body =>
          by_cases hst2 : st2 ≠ 200
          · simp [get_shelly_devices, fetch_states, hst, hst2,
              get_shelly_devices_filter, filterGo]
          · cases body <;>
              simp [get_shelly_devices, fetch_states, hst, hst2,
                get_shelly_devices_filter, filterGo]

/-- Witness for C3: a 403 health check yields an empty result even though
the hub would serve a valid states payload, and the 200/200 path returns
the payload's records. -/
theorem C3_witness :
    fetch_states ⟨.response 403 (), .response 200 (.json [⟨some "cover.gate", none⟩])⟩ = [] ∧
    get_shelly_devices ⟨.response 403 (), .response 200 (.json [⟨some "cover.gate", none⟩])⟩ = [] ∧
    fetch_states ⟨.response 200 (), .response 200 (.json [⟨some "cover.gate", none⟩])⟩ =
      [⟨some "cover.gate", none⟩] := by
  have h := C3_fetch (HttpResult.response 403 ())
    (HttpResult.response 200 (.json [⟨some "cover.gate", none⟩]))
  exact ⟨h.2.1 403 (by decide), h.2.2.2.2.2.2.1 403 (by decide), h.2.2.2.2.2.1 _⟩
/-- C4: exporting the two-entry list and reading the written file back
yields exactly the rows `id,name`, `switch.shelly_1,Kitchen`,
`cover.garage,Garage Door`, in that order. -/
theorem C4_roundtrip :
    (export_to_csv ⟨.ok, "/work"⟩
        [⟨"switch.shelly_1", "Kitchen"⟩, ⟨"cover.garage", "Garage Door"⟩]
        (some "devices.csv") "20250101_120000").file =
      some ("devices.csv",
        csvContent [⟨"switch.shelly_1", "Kitchen"⟩, ⟨"cover.garage", "Garage Door"⟩]) ∧
    readRows (csvContent [⟨"switch.shelly_1", "Kitchen"⟩, ⟨"cover.garage", "Garage Door"⟩]) =
      ["id,name", "switch.shelly_1,Kitchen", "cover.garage,Garage Door"] := by
  exact ⟨by decide, by decide⟩

/-- C5: the filter's output is a sublist of the input's projections —
entries appear in the order their records were encountered — and a
successful export writes the header followed by one CSV row per entry in
that same order. -/
theorem C5_order (es : List RawEntity) (ds : List DeviceEntry) :
    (get_shelly_devices_filter es).Sublist
      (es.map (fun e => { id := getEntityId e, name := friendlyName e })) ∧
    (ds ≠ [] → ∀ (cwd f timestamp : String), ¬ f.isEmpty = true →
      (export_to_csv ⟨.ok, cwd⟩ ds (some f) timestamp).file = some (f, csvContent ds) ∧
      csvContent ds = "id,name" ++ crlf ++ String.join (ds.map (fun d => entryRow d ++ crlf))) := by
  refine ⟨filterGo_sublist es [], ?_⟩
  intro hne cwd f timestamp hf
  constructor
  · simp [export_to_csv, List.isEmpty_eq_false.mpr hne, hf]
  · rw [csvContent, writesSeq, stringJoin_cons]

/-- Witness for C5's export half at a concrete two-entry list. -/
theorem C5_witness :
    (export_to_csv ⟨.ok, "/work"⟩
        [⟨"cover.garage", "Garage Door"⟩, ⟨"switch.shelly_1", "Kitchen"⟩]
        (some "out.csv") "20250101_120000").file =
      some ("out.csv",
        csvContent [⟨"cover.garage", "Garage Door"⟩, ⟨"switch.shelly_1", "Kitchen"⟩]) :=
  ((C5_order [] [⟨"cover.garage", "Garage Door"⟩, ⟨"switch.shelly_1", "Kitchen"⟩]).2
    (by decide) "/work" "out.csv" "20250101_120000" (by decide)).1

/-- C6: an empty entry list produces no write and no file, and the
exporter signals that there is nothing to export. -/
theorem C6_empty (fs : FS) (out : Option String) (timestamp : String) :
    export_to_csv fs [] out timestamp =
      { ret := none, file := none
        msgs := ["No Shelly device entities to export. CSV file will not be created."] } := rfl

/-- C7: on a permission error or any other I/O failure the export returns
no success-path result, and on a permission failure no file is produced. -/
theorem C7_write_failure (fs : FS) (ds : List DeviceEntry) (out : Option String)
    (timestamp : String) (hne : ds ≠ []) (hfail : fs.writeOutcome ≠ .ok) :
    (export_to_csv fs ds out timestamp).ret = none ∧
    (fs.writeOutcome = .permissionDenied →
      (export_to_csv fs ds out timestamp).file = none) := by
  obtain ⟨wo, cwd⟩ := fs
  cases wo with
  | ok => exact absurd rfl hfail
  | permissionDenied =>
    exact ⟨by simp [export_to_csv, List.isEmpty_eq_false.mpr hne], fun _ => by
      simp [export_to_csv, List.isEmpty_eq_false.mpr hne]⟩
  | ioErrorAfter k msg =>
    refine ⟨by simp [export_to_csv, List.isEmpty_eq_false.mpr hne], fun h => ?_⟩
    exact absurd h (by simp)

/-- Witness for C7 at a permission-denied filesystem. -/
theorem C7_witness :
    (export_to_csv ⟨.permissionDenied, "/work"⟩ [⟨"cover.garage", "Garage Door"⟩]
        (some "out.csv") "20250101_120000").ret = none ∧
    (export_to_csv ⟨.permissionDenied, "/work"⟩ [⟨"cover.garage", "Garage Door"⟩]
        (some "out.csv") "20250101_120000").file = none := by
  have h := C7_write_failure ⟨.permissionDenied, "/work"⟩ [⟨"cover.garage", "Garage Door"⟩]
    (some "out.csv") "20250101_120000" (by decide) (by decide)
  exact ⟨h.1, h.2 rfl⟩
/-- C8 counterexample: with `--token FLAG` and `HA_TOKEN=ENV` both set,
`main` proceeds with the flag's value, not the environment variable's, so
the claim that the environment variable's value is the one used is false. -/
theorem C8_counterexample :
    resolveMain (some "http://ha.local") (some "flag-token") none (some "env-token") =
      .proceed "http://ha.local" "flag-token" ∧
    MainConfig.proceed "http://ha.local" "flag-token" ≠
      MainConfig.proceed "http://ha.local" "env-token" := by
  exact ⟨by decide, by decide⟩

/-- C8 amended: the flags are optional; a set, non-empty flag takes
precedence over its environment variable, which is used only when the
flag is absent or empty; and resolution failure for the URL or the token
exits with status 1 and a diagnostic. -/
theorem C8_cli (aU aT eU eT : Option String) :
    ((aT = none ∨ aT = some "") → pyOr aT eT = eT) ∧
    (∀ s, aT = some s → ¬ s.isEmpty = true → pyOr aT eT = some s) ∧
    ((aU = none ∨ aU = some "") → pyOr aU eU = eU) ∧
    (∀ s, aU = some s → ¬ s.isEmpty = true → pyOr aU eU = some s) ∧
    (truthy (pyOr aU eU) = false →
      resolveMain aU aT eU eT = .exitError 1 urlMissingMsg) ∧
    (truthy (pyOr aU eU) = true → truthy (pyOr aT eT) = false →
      resolveMain aU aT eU eT = .exitError 1 tokenMissingMsg) ∧
    (∀ u t, pyOr aU eU = some u → pyOr aT eT = some t →
      ¬ u.isEmpty = true → ¬ t.isEmpty = true →
      resolveMain aU aT eU eT = .proceed u t) := by
  have hemp : ("" : String).isEmpty = true := by decide
  refine ⟨?_, ?_, ?_, ?_, ?_, ?_, ?_⟩
  · rintro (rfl | rfl) <;> simp [pyOr, hemp]
  · rintro s rfl hs
    simp [pyOr, hs]
  · rintro (rfl | rfl) <;> simp [pyOr, hemp]
  · rintro s rfl hs
    simp [pyOr, hs]
  · intro hu
    simp [resolveMain, hu]
  · intro hu ht
    simp [resolveMain, hu, ht]
  · intro u t hu ht hu' ht'
    have hut : truthy (some u) = true := by
      simp [truthy]
      exact Bool.not_eq_true _ ▸ hu'
    have htt : truthy (some t) = true := by
      simp [truthy]
      exact Bool.not_eq_true _ ▸ ht'
    simp [resolveMain, hu, ht, hut, htt]

/-- Witness for the amended C8: flag beats environment for the token, and
a fully unresolvable URL exits with status 1. -/
theorem C8_cli_witness :
    resolveMain (some "http://ha.local") (some "flag-token") (some "http://env.local")
        (some "env-token") = .proceed "http://ha.local" "flag-token" ∧
    resolveMain none (some "flag-token") none (some "env-token") =
      .exitError 1 urlMissingMsg := by
  have h1 := C8_cli (some "http://ha.local") (some "flag-token")
    (some "http://env.local") (some "env-token")
  have h2 := C8_cli none (some "flag-token") none (some "env-token")
  exact ⟨h1.2.2.2.2.2.2 "http://ha.local" "flag-token" (by decide) (by decide)
      (by decide) (by decide),
    h2.2.2.2.2.1 (by decide)⟩
/-- C9: every filtered entry's name comes from its source record —
`friendly_name` when that attribute is present, the identifier itself
when the attribute or the whole attributes mapping is absent. -/
theorem C9_name_projection (es : List RawEntity) :
    (∀ d ∈ get_shelly_devices_filter es,
      ∃ e ∈ es, d.id = getEntityId e ∧ d.name = friendlyName e) ∧
    (∀ (e : RawEntity) (a : Attributes) (fn : String),
      e.attributes = some a → a.friendly_name = some fn → friendlyName e = fn) ∧
    (∀ e : RawEntity, e.attributes = none → friendlyName e = getEntityId e) ∧
    (∀ (e : RawEntity) (a : Attributes),
      e.attributes = some a → a.friendly_name = none → friendlyName e = getEntityId e) := by
  refine ⟨?_, ?_, ?_, ?_⟩
  · intro d hd
    obtain ⟨e, hfind, hide, hname⟩ := filterGo_first_occ es [] d hd
    exact ⟨e, List.mem_of_find?_eq_some hfind, hide.symm, hname.symm⟩
  · intro e a fn ha hfn
    simp [friendlyName, getAttributes, ha, hfn]
  · intro e ha
    simp [friendlyName, getAttributes, ha]
  · intro e a ha hfn
    simp [friendlyName, getAttributes, ha, hfn]

/-- Witness for C9 at records with present, absent, and missing-mapping
`friendly_name`. -/
theorem C9_witness :
    friendlyName ⟨some "switch.shelly_1", some ⟨some "Kitchen"⟩⟩ = "Kitchen" ∧
    friendlyName ⟨some "cover.gate", none⟩ = getEntityId ⟨some "cover.gate", none⟩ ∧
    friendlyName ⟨some "cover.door", some ⟨none⟩⟩ = getEntityId ⟨some "cover.door", some ⟨none⟩⟩ := by
  have h := C9_name_projection []
  exact ⟨h.2.1 _ ⟨some "Kitchen"⟩ "Kitchen" rfl rfl, h.2.2.1 _ rfl, h.2.2.2 _ ⟨none⟩ rfl rfl⟩

/-- C10: the filter is total over malformed records: a missing `entity_id`
is read as the empty identifier, which no output entry ever carries, and a
missing attributes mapping is read as an empty mapping, making the name
fall back to the identifier. -/
theorem C10_malformed (es : List RawEntity) :
    (∀ a, getEntityId ⟨none, a⟩ = "") ∧
    (∀ d ∈ get_shelly_devices_filter es, d.id ≠ "") ∧
    (∀ i, getAttributes ⟨i, none⟩ = ⟨none⟩) ∧
    (∀ i, friendlyName ⟨i, none⟩ = getEntityId ⟨i, none⟩) := by
  refine ⟨fun a => rfl, ?_, fun i => rfl, fun i => rfl⟩
  intro d hd heq
  have hp := filterGo_passes es [] d hd
  rw [heq] at hp
  exact absurd hp (by decide)

/-- Witness for C10: a record with no `entity_id` yields no entry while a
well-formed cover record still does. -/
theorem C10_witness :
    get_shelly_devices_filter [⟨none, some ⟨some "Ghost"⟩⟩, ⟨some "cover.gate", none⟩] =
      [⟨"cover.gate", "cover.gate"⟩] ∧
    (⟨"cover.gate", "cover.gate"⟩ : DeviceEntry).id ≠ "" := by
  refine ⟨by decide, ?_⟩
  exact (C10_malformed [⟨none, some ⟨some "Ghost"⟩⟩, ⟨some "cover.gate", none⟩]).2.1
    ⟨"cover.gate", "cover.gate"⟩ (by decide)
